import Mathlib

/-!
Verification of the xray-iot message-queue reliability layer and ingestion
pipeline, shallowly embedded from the TypeScript source:
  * `libs/common/src/rmq/rmq.service.ts`      (RmqService)
  * `apps/xray-service/src/.../xray-consumer` (XrayConsumer)
  * `apps/xray-service/src/signals/...`       (SignalService)
  * `apps/producer-service/src/...`           (ProducerService)

JavaScript values decoded from JSON (plus `Date` objects, which the consumer
accepts as a `time` field) are modelled by `JsVal`; JS numbers are modelled as
rationals (exact for every value the claims exercise), JS `Date` objects as
`Option Int` (milliseconds since epoch, `none` = Invalid Date).  The
implementation-defined pieces of the JS runtime that the code calls into
(`new Date(string)` parsing, `Date.now`) are passed explicitly as a `JsEnv`.
-/

namespace XrayIot

/-- A JavaScript value as seen by the pipeline: the image of `JSON.parse`
together with `Date` objects (`date none` models an Invalid Date). -/
inductive JsVal where
  | null
  | bool (b : Bool)
  | num (q : ℚ)
  | str (s : String)
  | date (ms : Option Int)
  | arr (elems : List JsVal)
  | obj (fields : List (String × JsVal))

/-- JS property access `v[k]` for a named key: only plain objects yield a
value; arrays, dates, strings and primitives give `undefined` (`none`). -/
def jsGet : JsVal → String → Option JsVal
  | .obj fields, k => fields.lookup k
  | _, _ => none

/-- JS truthiness of a value (`NaN` is not representable in our number
model, otherwise exact). -/
def jsTruthy : JsVal → Bool
  | .null => false
  | .bool b => b
  | .num q => q != 0
  | .str s => s != ""
  | .date _ => true
  | .arr _ => true
  | .obj _ => true

/-- JS truthiness of a possibly-`undefined` value (`none` = `undefined`). -/
def jsTruthyOpt : Option JsVal → Bool
  | none => false
  | some v => jsTruthy v

/-- `typeof v === 'object'` (true for `null`, arrays, plain objects and
`Date` objects). -/
def jsTypeofObject : JsVal → Bool
  | .null => true
  | .arr _ => true
  | .obj _ => true
  | .date _ => true
  | _ => false

/-- Left-pad a digit string with zeros to the given width. -/
def padLeft (s : String) (w : Nat) : String :=
  String.mk (List.replicate (w - s.length) '0') ++ s

/-- Two-digit zero-padded rendering of a (nonnegative) integer field. -/
def pad2 (n : Int) : String := padLeft (toString n.natAbs) 2

/-- Year rendering of `Date.prototype.toISOString`: four digits for years
0000–9999, else the expanded six-digit form with an explicit sign. -/
def isoYear (y : Int) : String :=
  if 0 ≤ y ∧ y ≤ 9999 then padLeft (toString y.natAbs) 4
  else (if y < 0 then "-" else "+") ++ padLeft (toString y.natAbs) 6

/-- Proleptic Gregorian (year, month, day) from days since 1970-01-01
(the standard civil-from-days algorithm, as ECMA-262 specifies for
`Date`). -/
def civilFromDays (z0 : Int) : Int × Int × Int :=
  let z := z0 + 719468
  let era := Int.ediv z 146097
  let doe := Int.emod z 146097
  let yoe := Int.ediv (doe - Int.ediv doe 1460 + Int.ediv doe 36524 - Int.ediv doe 146096) 365
  let y := yoe + era * 400
  let doy := doe - (365 * yoe + Int.ediv yoe 4 - Int.ediv yoe 100)
  let mp := Int.ediv (5 * doy + 2) 153
  let d := doy - Int.ediv (153 * mp + 2) 5 + 1
  let m := mp + (if mp < 10 then 3 else (-9 : Int))
  (if m ≤ 2 then y + 1 else y, m, d)

/-- `Date.prototype.toISOString` on a valid time value (milliseconds since
the epoch): the canonical `YYYY-MM-DDTHH:mm:ss.sssZ` rendering. -/
def toISOString (ms : Int) : String :=
  let days := Int.ediv ms 86400000
  let msod := Int.emod ms 86400000
  match civilFromDays days with
  | (y, m, d) =>
    isoYear y ++ "-" ++ pad2 m ++ "-" ++ pad2 d ++ "T" ++
    pad2 (Int.ediv msod 3600000) ++ ":" ++
    pad2 (Int.emod (Int.ediv msod 60000) 60) ++ ":" ++
    pad2 (Int.emod (Int.ediv msod 1000) 60) ++ "." ++
    padLeft (toString (Int.emod msod 1000).natAbs) 3 ++ "Z"

/-- `new Date(n)` for a numeric argument: ECMA-262 `TimeClip` — invalid
when the magnitude exceeds 8.64e15, otherwise truncated toward zero. -/
def jsDateOfNum (q : ℚ) : Option Int :=
  if q < -8640000000000000 ∨ 8640000000000000 < q then none
  else some (Int.tdiv q.num (Int.ofNat q.den))

/-- Decimal rendering of a JS number (exact finite-decimal expansion when
one exists, which covers every number produced by `JSON.parse`; the
fallback branch is unreachable on the pipeline's inputs). -/
def jsNumToString (q : ℚ) : String :=
  let sign := if q < 0 then "-" else ""
  let n := q.num.natAbs
  let d := q.den
  match (List.range 101).find? (fun k => 10 ^ k % d == 0) with
  | some k =>
    let m := n * 10 ^ k / d
    if k = 0 then sign ++ toString m
    else
      let s := padLeft (toString m) (k + 1)
      sign ++ s.dropRight k ++ "." ++ s.takeRight k
  | none => sign ++ toString n ++ "/" ++ toString d

/-- JSON string escaping as performed by `JSON.stringify`. -/
def jsonEscapeChar (c : Char) : String :=
  if c = '"' then "\\\""
  else if c = '\\' then "\\\\"
  else if c = '\n' then "\\n"
  else if c = '\r' then "\\r"
  else if c = '\t' then "\\t"
  else if c = '\x08' then "\\b"
  else if c = '\x0c' then "\\f"
  else if c.toNat < 32 then "\\u" ++ padLeft (Nat.toDigits 16 c.toNat |> String.mk) 4
  else String.singleton c

/-- Escape a whole string for JSON output. -/
def jsonEscape (s : String) : String :=
  String.join (s.toList.map jsonEscapeChar)

mutual

/-- `JSON.stringify` on a JS value (dates serialize through `toJSON`,
an Invalid Date serializing as `null`). -/
def stringifyVal : JsVal → String
  | .null => "null"
  | .bool b => cond b "true" "false"
  | .num q => jsNumToString q
  | .str s => "\"" ++ jsonEscape s ++ "\""
  | .date none => "null"
  | .date (some ms) => "\"" ++ toISOString ms ++ "\""
  | .arr xs => "[" ++ stringifyList xs ++ "]"
  | .obj fs => "\x7b" ++ stringifyFields fs ++ "\x7d"

/-- Comma-separated serialization of array elements. -/
def stringifyList : List JsVal → String
  | [] => ""
  | [x] => stringifyVal x
  | x :: xs => stringifyVal x ++ "," ++ stringifyList xs

/-- Comma-separated serialization of object fields. -/
def stringifyFields : List (String × JsVal) → String
  | [] => ""
  | [(k, v)] => "\"" ++ jsonEscape k ++ "\":" ++ stringifyVal v
  | (k, v) :: fs => "\"" ++ jsonEscape k ++ "\":" ++ stringifyVal v ++ "," ++ stringifyFields fs

end

/-- Skip JSON whitespace. -/
def skipWs : List Char → List Char
  | c :: cs => if c = ' ' ∨ c = '\t' ∨ c = '\n' ∨ c = '\r' then skipWs cs else c :: cs
  | [] => []

/-- Value of a decimal digit string. -/
def digitsToNat (ds : List Char) : Nat :=
  ds.foldl (fun n c => n * 10 + (c.toNat - 48)) 0

/-- Hexadecimal digit value, if any. -/
def hexVal (c : Char) : Option Nat :=
  if c.isDigit then some (c.toNat - 48)
  else if 'a' ≤ c ∧ c ≤ 'f' then some (c.toNat - 87)
  else if 'A' ≤ c ∧ c ≤ 'F' then some (c.toNat - 55)
  else none

/-- Match a literal suffix (used for `true` / `false` / `null`). -/
def matchLit : List Char → List Char → Option (List Char)
  | [], cs => some cs
  | l :: ls, c :: cs => if c = l then matchLit ls cs else none
  | _ :: _, [] => none

/-- Parse a JSON number (strict grammar: optional minus, integer part with
no leading zeros, optional fraction, optional exponent), exactly as a
rational. -/
def parseNumber (cs0 : List Char) : Option (ℚ × List Char) :=
  let (neg, cs) :=
    match cs0 with
    | '-' :: rest => (true, rest)
    | _ => (false, cs0)
  let intDigits := cs.takeWhile Char.isDigit
  let cs1 := cs.dropWhile Char.isDigit
  if intDigits.isEmpty then none
  else if intDigits.length > 1 && intDigits.head? == some '0' then none
  else
    let fracStep : Option (List Char × List Char) :=
      match cs1 with
      | '.' :: rest =>
        let fd := rest.takeWhile Char.isDigit
        if fd.isEmpty then none else some (fd, rest.dropWhile Char.isDigit)
      | _ => some ([], cs1)
    match fracStep with
    | none => none
    | some (fracDigits, cs2) =>
      let expStep : Option (Bool × List Char × List Char) :=
        match cs2 with
        | 'e' :: rest | 'E' :: rest =>
          let (eneg, rest1) :=
            match rest with
            | '+' :: r => (false, r)
            | '-' :: r => (true, r)
            | _ => (false, rest)
          let ed := rest1.takeWhile Char.isDigit
          if ed.isEmpty then none else some (eneg, ed, rest1.dropWhile Char.isDigit)
        | _ => some (false, [], cs2)
      match expStep with
      | none => none
      | some (eneg, expDigits, cs3) =>
        let mantissa : ℚ := (digitsToNat intDigits : ℚ) +
          (digitsToNat fracDigits : ℚ) / ((10 : ℚ) ^ fracDigits.length)
        let e := digitsToNat expDigits
        let mag : ℚ := if eneg then mantissa / (10 : ℚ) ^ e else mantissa * (10 : ℚ) ^ e
        some ((if neg then -mag else mag), cs3)

/-- Parse the body of a JSON string after the opening quote, returning the
decoded characters and the remainder after the closing quote. -/
def parseStringBody (fuel : Nat) (cs : List Char) : Option (List Char × List Char) :=
  match fuel, cs with
  | 0, _ => none
  | _, [] => none
  | _ + 1, '"' :: rest => some ([], rest)
  | f + 1, '\\' :: e :: rest =>
    let simple : Option Char :=
      match e with
      | '"' => some '"'
      | '\\' => some '\\'
      | '/' => some '/'
      | 'b' => some '\x08'
      | 'f' => some '\x0c'
      | 'n' => some '\n'
      | 'r' => some '\r'
      | 't' => some '\t'
      | _ => none
    match simple with
    | some c => (parseStringBody f rest).map (fun p => (c :: p.1, p.2))
    | none =>
      if e = 'u' then
        match rest with
        | h1 :: h2 :: h3 :: h4 :: rest2 =>
          match hexVal h1, hexVal h2, hexVal h3, hexVal h4 with
          | some a, some b, some c, some d =>
            (parseStringBody f rest2).map
              (fun p => (Char.ofNat (((a * 16 + b) * 16 + c) * 16 + d) :: p.1, p.2))
          | _, _, _, _ => none
        | _ => none
      else none
  | f + 1, c :: rest =>
    if c.toNat < 32 then none
    else (parseStringBody f rest).map (fun p => (c :: p.1, p.2))

mutual

/-- Parse one JSON value (fuel-bounded recursive descent). -/
def parseVal (fuel : Nat) (cs : List Char) : Option (JsVal × List Char) :=
  match fuel with
  | 0 => none
  | f + 1 =>
    match skipWs cs with
    | [] => none
    | c :: rest =>
      if c = '"' then
        (parseStringBody (rest.length + 1) rest).map (fun p => (.str (String.mk p.1), p.2))
      else if c = '\x7b' then
        match skipWs rest with
        | '\x7d' :: r2 => some (.obj [], r2)
        | r2 => (parseMembers f r2).map (fun p => (.obj p.1, p.2))
      else if c = '[' then
        match skipWs rest with
        | ']' :: r2 => some (.arr [], r2)
        | r2 => (parseElems f r2).map (fun p => (.arr p.1, p.2))
      else if c = 't' then (matchLit ['r', 'u', 'e'] rest).map (fun r => (.bool true, r))
      else if c = 'f' then (matchLit ['a', 'l', 's', 'e'] rest).map (fun r => (.bool false, r))
      else if c = 'n' then (matchLit ['u', 'l', 'l'] rest).map (fun r => (.null, r))
      else (parseNumber (c :: rest)).map (fun p => (.num p.1, p.2))

/-- Parse the members of a JSON object after the opening brace (nonempty
case), up to and including the closing brace. -/
def parseMembers (fuel : Nat) (cs : List Char) : Option (List (String × JsVal) × List Char) :=
  match fuel with
  | 0 => none
  | f + 1 =>
    match skipWs cs with
    | '"' :: rest =>
      match parseStringBody (rest.length + 1) rest with
      | none => none
      | some (key, r1) =>
        match skipWs r1 with
        | ':' :: r2 =>
          match parseVal f r2 with
          | none => none
          | some (v, r3) =>
            match skipWs r3 with
            | ',' :: r4 => (parseMembers f r4).map (fun p => ((String.mk key, v) :: p.1, p.2))
            | '\x7d' :: r4 => some ([(String.mk key, v)], r4)
            | _ => none
        | _ => none
    | _ => none

/-- Parse the elements of a JSON array after the opening bracket (nonempty
case), up to and including the closing bracket. -/
def parseElems (fuel : Nat) (cs : List Char) : Option (List JsVal × List Char) :=
  match fuel with
  | 0 => none
  | f + 1 =>
    match parseVal f cs with
    | none => none
    | some (v, r1) =>
      match skipWs r1 with
      | ',' :: r2 => (parseElems f r2).map (fun p => (v :: p.1, p.2))
      | ']' :: r2 => some ([v], r2)
      | _ => none

end

/-- `JSON.parse`: `none` models a thrown `SyntaxError` on malformed input. -/
def jsonParse (s : String) : Option JsVal :=
  match parseVal (s.length + 1) s.toList with
  | some (v, rest) => if (skipWs rest).isEmpty then some v else none
  | none => none

/-! ## RmqService (`libs/common/src/rmq/rmq.service.ts`)

The mutable fields of the service are modelled as `RmqState`.  Channel
instances are numbered by `channelGen` (0 = no channel ever created, as
`this.channel` is initially unset); `consumersOnChannel` records the queues
with a consumer registered on the *current* channel — a freshly created
channel starts with none, which is exactly the amqplib semantics the spec
cites ("a channel's consumers do not survive the channel's closure").
Broker interactions are reported as an `RmqEvent` trace, and the outcome of
each `amqp.connect` attempt is an oracle `Nat → Bool` indexed by attempt
number.  The unbounded retry loop is given explicit fuel; `none` means the
fuel ran out, never a behavior of the code. -/

/-- Mutable state of `RmqService`. -/
structure RmqState where
  isConnected : Bool
  reconnectAttempts : Nat
  channelGen : Nat
  consumersOnChannel : List String
deriving DecidableEq, Repr

/-- The state before `onModuleInit`. -/
def initialRmqState : RmqState := ⟨false, 0, 0, []⟩

/-- Observable broker interactions of the connect/reconnect logic. -/
inductive RmqEvent where
  | createChannel (gen : Nat)
  | prefetch (n : Nat)
  | assertQueue (name : String) (durable : Bool)
  | wait (ms : Nat)
deriving DecidableEq, Repr

/-- The two queues `RmqService` asserts (field `queues`). -/
def rmqQueues : List String := ["xray_data_queue", "xray_queue"]

/-- Broker interactions of one successful connect: create a channel,
`prefetch(1)`, assert each known queue as durable. -/
def connectSeqEvents (gen : Nat) : List RmqEvent :=
  RmqEvent.createChannel gen :: RmqEvent.prefetch 1 ::
    rmqQueues.map (fun q => RmqEvent.assertQueue q true)

/-- `min(maxReconnectDelay, 2^attempts * 1000)` — the backoff delay computed
in `handleReconnect` after incrementing the counter. -/
def reconnectDelay (attempts : Nat) : Nat :=
  min 30000 (2 ^ attempts * 1000)

mutual

/-- `RmqService.connect`: attempt number `k` is decided by the oracle.  On
success the service holds a fresh channel (no consumers), prefetch 1, the
durable queue assertions, `isConnected := true` and a reset attempt counter.
On failure the `catch` branch runs `handleReconnect`. -/
def connect (fuel : Nat) (oracle : Nat → Bool) (k : Nat) (st : RmqState) :
    Option (RmqState × List RmqEvent) :=
  match fuel with
  | 0 => none
  | f + 1 =>
    if oracle k then
      some ({ isConnected := true, reconnectAttempts := 0,
              channelGen := st.channelGen + 1, consumersOnChannel := [] },
            connectSeqEvents (st.channelGen + 1))
    else
      handleReconnect f oracle (k + 1) st

/-- `RmqService.handleReconnect`: drop `isConnected`, increment the attempt
counter, wait the capped exponential delay, then run `connect` again. -/
def handleReconnect (fuel : Nat) (oracle : Nat → Bool) (k : Nat) (st : RmqState) :
    Option (RmqState × List RmqEvent) :=
  match fuel with
  | 0 => none
  | f + 1 =>
    let st1 : RmqState :=
      { st with isConnected := false, reconnectAttempts := st.reconnectAttempts + 1 }
    let d := reconnectDelay st1.reconnectAttempts
    match connect f oracle k st1 with
    | none => none
    | some (st2, evs) => some (st2, RmqEvent.wait d :: evs)

end

/-- A message handed to `channel.sendToQueue`. -/
structure SentMessage where
  queue : String
  content : String
  persistent : Bool
deriving DecidableEq, Repr

/-- The message of the `Error` thrown by `sendToQueue` and `consume` when
the service is not connected. -/
def notConnectedMsg : String :=
  "RabbitMQ not connected. Please ensure the service is initialized."

/-- `RmqService.sendToQueue`: throws when not connected or no channel ever
existed; otherwise serializes the payload and sends it with
`persistent: true`. -/
def sendToQueue (st : RmqState) (queueName : String) (data : JsVal) :
    Except String (RmqState × SentMessage) :=
  if !st.isConnected || st.channelGen == 0 then
    .error notConnectedMsg
  else
    .ok (st, ⟨queueName, stringifyVal data, true⟩)

/-- The consumer-registration half of `RmqService.consume`: throws when not
connected, otherwise registers a consumer for the queue on the current
channel. -/
def consume (st : RmqState) (queueName : String) : Except String RmqState :=
  if !st.isConnected || st.channelGen == 0 then
    .error notConnectedMsg
  else
    .ok { st with consumersOnChannel := st.consumersOnChannel ++ [queueName] }

/-- Acknowledgment operations a consumer callback can perform on the
channel (`nack` carries amqplib's `allUpTo` and `requeue` flags). -/
inductive ChanOp where
  | ack
  | nack (allUpTo : Bool) (requeue : Bool)
deriving DecidableEq, Repr

/-- Result of processing one delivered (non-null) message. -/
structure DeliveryResult where
  ops : List ChanOp
  handlerInvoked : Bool
  loggedError : Bool
deriving DecidableEq, Repr

/-- The per-message body of `RmqService.consume`: parse the content, run the
callback, `ack` on success; any throw (parse or callback) is caught, logged
and answered with `nack(msg, false, false)`. -/
def processDelivered (handler : JsVal → Except String Unit) (content : String) :
    DeliveryResult :=
  match jsonParse content with
  | none => ⟨[ChanOp.nack false false], false, true⟩
  | some v =>
    match handler v with
    | .ok _ => ⟨[ChanOp.ack], true, false⟩
    | .error _ => ⟨[ChanOp.nack false false], true, true⟩

/-! ## Ingestion pipeline (`XrayConsumer` and `SignalService`) -/

/-- The implementation-defined pieces of the JS runtime the pipeline calls:
`new Date(string)` parsing (`none` = Invalid Date) and the current time. -/
structure JsEnv where
  dateParse : String → Option Int
  now : Int

/-- `CreateXrayDto` — the normalized record shape.  `XrayConsumer.parseXrayData`
returns it and `SignalService.processRawSignal` both consumes and produces it.
The optional coordinate fields exist on the TS class; `parseXrayData` never
sets them (its object literal has no such keys).  The `rawData` field of the
TS class is omitted: nothing in the consume pipeline reads or writes it. -/
structure CreateXrayDto where
  deviceId : String
  time : String
  dataLength : ℚ
  dataVolume : ℚ
  kV : Option ℚ
  mA : Option ℚ
  exposureTime : Option ℚ
  projectionType : Option String
  latitude : Option ℚ
  longitude : Option ℚ
  speed : Option ℚ
deriving DecidableEq, Repr

/-- The JSON object fields of a dto, in the key order of the object literal
in `parseXrayData`; fields holding `undefined` are skipped by
`JSON.stringify`. -/
def dtoJsonFields (d : CreateXrayDto) : List (String × JsVal) :=
  [("deviceId", JsVal.str d.deviceId), ("time", JsVal.str d.time),
   ("dataLength", JsVal.num d.dataLength), ("dataVolume", JsVal.num d.dataVolume)] ++
  (match d.kV with | some v => [("kV", JsVal.num v)] | none => []) ++
  (match d.mA with | some v => [("mA", JsVal.num v)] | none => []) ++
  (match d.exposureTime with | some v => [("exposureTime", JsVal.num v)] | none => []) ++
  (match d.projectionType with | some s => [("projectionType", JsVal.str s)] | none => []) ++
  (match d.latitude with | some v => [("latitude", JsVal.num v)] | none => []) ++
  (match d.longitude with | some v => [("longitude", JsVal.num v)] | none => []) ++
  (match d.speed with | some v => [("speed", JsVal.num v)] | none => [])

/-- `JSON.stringify` applied to a dto. -/
def stringifyDto (d : CreateXrayDto) : String :=
  stringifyVal (JsVal.obj (dtoJsonFields d))

/-- `XrayConsumer.parseXrayData`: validation and normalization of a decoded
payload.  Thrown `Error`s (including the `RangeError` of `toISOString` on an
Invalid Date) are modelled as `Except.error` with the error message. -/
def parseXrayData (env : JsEnv) (rawData : JsVal) : Except String CreateXrayDto := do
  if !(jsTruthy rawData && jsTypeofObject rawData) then
    throw "Invalid data format: expected object"
  let deviceId ←
    match jsGet rawData "deviceId" with
    | some (.str s) =>
      if s == "" then throw "Invalid deviceId: expected non-empty string" else pure s
    | _ => throw "Invalid deviceId: expected non-empty string"
  let timeField := jsGet rawData "time"
  if !(jsTruthyOpt timeField) then
    throw "Invalid time: timestamp is required"
  let parsedTime : Option Int ←
    match timeField with
    | some (.date ms) => pure ms
    | some (.str s) =>
      match env.dateParse s with
      | none => throw "Invalid time format: unable to parse timestamp"
      | some ms => pure (some ms)
    | some (.num n) => pure (jsDateOfNum n)
    | _ => throw "Invalid time format: expected Date, string, or number"
  let timeIso ←
    match parsedTime with
    | none => throw "RangeError: Invalid time value"
    | some ms => pure (toISOString ms)
  pure
    { deviceId := deviceId
      time := timeIso
      dataLength := match jsGet rawData "dataLength" with | some (.num q) => q | _ => 0
      dataVolume := match jsGet rawData "dataVolume" with | some (.num q) => q | _ => 0
      kV := match jsGet rawData "kV" with | some (.num q) => some q | _ => none
      mA := match jsGet rawData "mA" with | some (.num q) => some q | _ => none
      exposureTime := match jsGet rawData "exposureTime" with | some (.num q) => some q | _ => none
      projectionType := match jsGet rawData "projectionType" with | some (.str s) => some s | _ => none
      latitude := none
      longitude := none
      speed := none }

/-- `XrayConsumer.calculateDataLength`: UTF-8 byte length of the raw
payload's JSON encoding (`Buffer.byteLength(JSON.stringify(rawData))`; the
`catch`-to-0 fallback is unreachable on JSON-decoded values). -/
def calculateDataLengthRaw (rawData : JsVal) : ℚ :=
  ((stringifyVal rawData).utf8ByteSize : ℚ)

/-- `SignalService.calculateDataLength`: byte length of the dto's JSON
encoding (`Buffer.from(JSON.stringify(payload)).length`). -/
def calculateDataLengthSvc (payload : CreateXrayDto) : ℚ :=
  ((stringifyDto payload).utf8ByteSize : ℚ)

/-- `SignalService.calculateDataVolume`: `calculateDataLength(payload) * 1.5`.
The byte length is an integer, so multiplying by 1.5 is exactly halving the
tripled length; `Rat.divInt` is used because it evaluates definitionally. -/
def calculateDataVolumeSvc (payload : CreateXrayDto) : ℚ :=
  Rat.divInt (3 * ((stringifyDto payload).utf8ByteSize : ℤ)) 2

/-- `SignalService.processRawSignal`: re-validate `deviceId`, normalize the
time (falling back to the current time when empty), and rebuild the record,
recomputing `dataLength` and `dataVolume` from the serialized payload. -/
def processRawSignal (env : JsEnv) (payload : CreateXrayDto) :
    Except String CreateXrayDto := do
  if payload.deviceId == "" then
    throw "Invalid x-ray payload: missing deviceId"
  let timeIso ←
    if payload.time != "" then
      match env.dateParse payload.time with
      | some ms => pure (toISOString ms)
      | none => throw "RangeError: Invalid time value"
    else
      pure (toISOString env.now)
  pure
    { deviceId := payload.deviceId
      time := timeIso
      dataLength := calculateDataLengthSvc payload
      dataVolume := calculateDataVolumeSvc payload
      kV := payload.kV
      mA := payload.mA
      exposureTime := payload.exposureTime
      projectionType := payload.projectionType
      latitude := payload.latitude
      longitude := payload.longitude
      speed := payload.speed }

/-- `SignalService.processAndSaveSignal`: process, then persist.  The
persistence collaborator (`xrayModel` + `save`) is modelled as appending the
processed record to a store; the store is returned unchanged on error. -/
def processAndSaveSignal (env : JsEnv) (store : List CreateXrayDto)
    (payload : CreateXrayDto) : Except String (List CreateXrayDto) := do
  let processed ← processRawSignal env payload
  pure (store ++ [processed])

/-- The consume callback `XrayConsumer.onApplicationBootstrap` registers for
`xray_queue`: parse/validate, fill a falsy `dataLength` from the raw payload,
persist; every throw is caught and logged (so the callback itself always
resolves).  Returns the new store and the logged error, if any. -/
def xrayConsumerHandler (env : JsEnv) (store : List CreateXrayDto) (payload : JsVal) :
    List CreateXrayDto × Option String :=
  let run : Except String (List CreateXrayDto) := do
    let xrayData ← parseXrayData env payload
    let xrayData :=
      if xrayData.dataLength == 0 then
        { xrayData with dataLength := calculateDataLengthRaw payload }
      else xrayData
    processAndSaveSignal env store xrayData
  match run with
  | .ok store2 => (store2, none)
  | .error e => (store, some e)

/-! ## ProducerService (`apps/producer-service`)

`generateSample` draws from `Math.random()`; the nine successive draws of
the source are supplied as `rnd : Fin 9 → ℚ` (each in `[0,1)`).  A
`Partial<XrayPayload>` override is a record of optional fields, and the
spread `{ ...base, ...overrides }` keeps an override field whenever it is
present. -/

/-- The payload object `generateSample` builds (every field set). -/
structure GenPayload where
  deviceId : String
  time : String
  dataLength : ℚ
  dataVolume : ℚ
  kV : ℚ
  mA : ℚ
  exposureTime : ℚ
  projectionType : String
  latitude : ℚ
  longitude : ℚ
  speed : ℚ
deriving DecidableEq, Repr

/-- A `Partial<XrayPayload>` override record. -/
structure GenOverrides where
  deviceId : Option String := none
  time : Option String := none
  dataLength : Option ℚ := none
  dataVolume : Option ℚ := none
  kV : Option ℚ := none
  mA : Option ℚ := none
  exposureTime : Option ℚ := none
  projectionType : Option String := none
  latitude : Option ℚ := none
  longitude : Option ℚ := none
  speed : Option ℚ := none
deriving DecidableEq, Repr

/-- `ProducerService.generateSample`: randomized defaults, overridden
verbatim by any present override field (no validation). -/
def generateSample (now : Int) (rnd : Fin 9 → ℚ) (deviceId : String)
    (ov : GenOverrides) : GenPayload :=
  let base : GenPayload :=
    { deviceId := deviceId
      time := toISOString now
      dataLength := 1024 + (Int.floor (rnd 0 * 4096) : ℤ)
      dataVolume := 2048 + (Int.floor (rnd 1 * 8192) : ℤ)
      kV := 80 + (Int.floor (rnd 2 * 40) : ℤ)
      mA := 100 + (Int.floor (rnd 3 * 300) : ℤ)
      exposureTime := 50 + (Int.floor (rnd 4 * 150) : ℤ)
      projectionType := if rnd 5 > 1 / 2 then "AP" else "PA"
      latitude := 51339764 / 1000000 + (rnd 6 - 1 / 2) * (1 / 1000)
      longitude := 12339223833333334 / 1000000000000000 + (rnd 7 - 1 / 2) * (1 / 1000)
      speed := 1 / 2 + rnd 8 * 3 }
  { deviceId := ov.deviceId.getD base.deviceId
    time := ov.time.getD base.time
    dataLength := ov.dataLength.getD base.dataLength
    dataVolume := ov.dataVolume.getD base.dataVolume
    kV := ov.kV.getD base.kV
    mA := ov.mA.getD base.mA
    exposureTime := ov.exposureTime.getD base.exposureTime
    projectionType := ov.projectionType.getD base.projectionType
    latitude := ov.latitude.getD base.latitude
    longitude := ov.longitude.getD base.longitude
    speed := ov.speed.getD base.speed }

/-! ## Theorems -/

/-- Reduction of `Except` bind on an error (do-notation helper). -/
theorem except_bind_error (e : String) (f : α → Except String β) :
    (Except.error e : Except String α) >>= f = .error e := rfl

/-- Reduction of `Except` bind on a success (do-notation helper). -/
theorem except_bind_ok (a : α) (f : α → Except String β) :
    (Except.ok a : Except String α) >>= f = f a := rfl

/-- `throw` is `Except.error` (do-notation helper). -/
theorem except_throw_eq (e : String) :
    (throw e : Except String α) = Except.error e := rfl

/-- `pure` is `Except.ok` (do-notation helper). -/
theorem except_pure_eq (a : α) :
    (pure a : Except String α) = Except.ok a := rfl

/-- Claim C1: every delivered message ends with exactly one channel
acknowledgment operation — `ack` precisely when JSON decoding and the
handler both succeed, and `nack` with `requeue := false` otherwise; no
message ends with neither outcome or with both. -/
theorem consume_exactly_one_outcome (handler : JsVal → Except String Unit)
    (content : String) :
    ((processDelivered handler content).ops = [ChanOp.ack] ∨
      (processDelivered handler content).ops = [ChanOp.nack false false]) ∧
    ((processDelivered handler content).ops = [ChanOp.ack] ↔
      ∃ v, jsonParse content = some v ∧ handler v = .ok ()) := by
  cases hp : jsonParse content with
  | none => simp [processDelivered, hp]
  | some v =>
    cases hh : handler v with
    | ok u => cases u; simp [processDelivered, hp, hh]
    | error e =>
      refine ⟨Or.inr ?_, ?_⟩
      · simp [processDelivered, hp, hh]
      · simp only [processDelivered, hp, hh]
        constructor
        · intro hcon; cases hcon
        · rintro ⟨w, hw, hok⟩
          cases hw
          rw [hok] at hh
          cases hh

/-- Claim C3: publishing while the client is not connected throws the
descriptive not-connected error; no message is produced. -/
theorem sendToQueue_not_connected_throws (st : RmqState) (q : String) (d : JsVal)
    (h : st.isConnected = false) :
    sendToQueue st q d = .error notConnectedMsg := by
  simp [sendToQueue, h]

/-- Witness for C3 at the initial (never-connected) state. -/
theorem sendToQueue_not_connected_throws_witness :
    initialRmqState.isConnected = false ∧
    sendToQueue initialRmqState "xray_queue" JsVal.null = .error notConnectedMsg :=
  ⟨rfl, sendToQueue_not_connected_throws initialRmqState "xray_queue" JsVal.null rfl⟩

/-- Claim C4: a delivered message whose content is not well-formed JSON is
negatively acknowledged with `requeue := false`, the failure is logged, and
the handler is never invoked. -/
theorem malformed_message_dropped (handler : JsVal → Except String Unit)
    (content : String) (h : jsonParse content = none) :
    processDelivered handler content =
      ⟨[ChanOp.nack false false], false, true⟩ := by
  simp [processDelivered, h]

/-- Witness for C4 on the malformed content `"nope"`. -/
theorem malformed_message_dropped_witness :
    jsonParse "nope" = none ∧
    processDelivered (fun _ => .ok ()) "nope" =
      ⟨[ChanOp.nack false false], false, true⟩ :=
  ⟨rfl, malformed_message_dropped _ _ rfl⟩

/-- Helper: on an object payload whose `deviceId` field is not a nonempty
string, `parseXrayData` throws the invalid-deviceId error. -/
theorem parseXrayData_bad_deviceId (env : JsEnv) (fs : List (String × JsVal))
    (h : ∀ s, jsGet (.obj fs) "deviceId" = some (.str s) → s = "") :
    parseXrayData env (.obj fs) =
      .error "Invalid deviceId: expected non-empty string" := by
  unfold parseXrayData
  cases hl : jsGet (.obj fs) "deviceId" with
  | none =>
    simp [jsTruthy, jsTypeofObject, hl, except_bind_error, except_bind_ok,
      except_throw_eq, except_pure_eq]
  | some v =>
    cases v with
    | str s =>
      have hs : s = "" := h s hl
      subst hs
      simp [jsTruthy, jsTypeofObject, hl, except_bind_error, except_bind_ok,
        except_throw_eq, except_pure_eq]
    | null =>
      simp [jsTruthy, jsTypeofObject, hl, except_bind_error, except_bind_ok,
        except_throw_eq, except_pure_eq]
    | bool b =>
      simp [jsTruthy, jsTypeofObject, hl, except_bind_error, except_bind_ok,
        except_throw_eq, except_pure_eq]
    | num q =>
      simp [jsTruthy, jsTypeofObject, hl, except_bind_error, except_bind_ok,
        except_throw_eq, except_pure_eq]
    | date ms =>
      simp [jsTruthy, jsTypeofObject, hl, except_bind_error, except_bind_ok,
        except_throw_eq, except_pure_eq]
    | arr xs =>
      simp [jsTruthy, jsTypeofObject, hl, except_bind_error, except_bind_ok,
        except_throw_eq, except_pure_eq]
    | obj gs =>
      simp [jsTruthy, jsTypeofObject, hl, except_bind_error, except_bind_ok,
        except_throw_eq, except_pure_eq]

/-- Helper: when `parseXrayData` throws, the consume callback catches and
logs the error and the store is untouched. -/
theorem xrayConsumerHandler_parse_error (env : JsEnv) (store : List CreateXrayDto)
    (p : JsVal) (e : String) (h : parseXrayData env p = .error e) :
    xrayConsumerHandler env store p = (store, some e) := by
  simp [xrayConsumerHandler, h, except_bind_error, except_bind_ok,
    except_throw_eq, except_pure_eq]

/-- Claim C6: a decoded object payload whose `deviceId` is absent, not a
string, or an empty string is rejected with the invalid-deviceId error and
the persistence store is left untouched (the create/save path is never
reached). -/
theorem invalid_deviceId_rejected (env : JsEnv) (store : List CreateXrayDto)
    (fs : List (String × JsVal))
    (h : ∀ s, jsGet (.obj fs) "deviceId" = some (.str s) → s = "") :
    xrayConsumerHandler env store (.obj fs) =
      (store, some "Invalid deviceId: expected non-empty string") :=
  xrayConsumerHandler_parse_error env store _ _ (parseXrayData_bad_deviceId env fs h)

/-- Witness for C6: a payload with no `deviceId` key at all. -/
theorem invalid_deviceId_rejected_witness :
    xrayConsumerHandler ⟨fun _ => some 0, 0⟩ [] (.obj [("time", JsVal.num 5)]) =
      ([], some "Invalid deviceId: expected non-empty string") :=
  invalid_deviceId_rejected _ _ _ (by intro s hs; simp [jsGet, List.lookup] at hs)

set_option maxRecDepth 4000 in
/-- Claim C2 (code bug): a client connects, registers a consumer on
`xray_queue`, then a connection loss triggers `handleReconnect` and the
reconnect succeeds — yet the new channel carries no consumers: `connect`
creates a fresh channel and never re-registers the previously registered
callbacks, so the subscription stops delivering. -/
theorem consumers_lost_after_reconnect :
    connect 1 (fun _ => true) 0 initialRmqState =
      some (⟨true, 0, 1, []⟩, connectSeqEvents 1) ∧
    consume ⟨true, 0, 1, []⟩ "xray_queue" = .ok ⟨true, 0, 1, ["xray_queue"]⟩ ∧
    (handleReconnect 2 (fun _ => true) 0 ⟨true, 0, 1, ["xray_queue"]⟩).map
        (fun p => p.1.consumersOnChannel) = some [] :=
  ⟨rfl, rfl, rfl⟩

/-- The `wait` events produced by `n` consecutive reconnect rounds starting
from an attempt counter of `a`: the capped exponential backoff delays
`reconnectDelay (a+1), reconnectDelay (a+2), …, reconnectDelay (a+n)`. -/
def waitsFrom (a : Nat) : Nat → List RmqEvent
  | 0 => []
  | n + 1 => RmqEvent.wait (reconnectDelay (a + 1)) :: waitsFrom (a + 1) n

/-- Helper: peeling one backoff round off `waitsFrom`. -/
theorem waitsFrom_succ (a n : Nat) :
    waitsFrom a (n + 1) =
      RmqEvent.wait (reconnectDelay (a + 1)) :: waitsFrom (a + 1) n := rfl

/-- Helper: a `connect` run whose attempts `k, …, k+n-1` fail and whose
attempt `k+n` succeeds produces one backoff wait per failure and ends
connected on a fresh channel with the attempt counter reset. -/
theorem connect_trace (oracle : Nat → Bool) :
    ∀ (n k : Nat) (st : RmqState) (fuel : Nat),
    (∀ i, i < n → oracle (k + i) = false) → oracle (k + n) = true →
    2 * n + 1 ≤ fuel →
    connect fuel oracle k st =
      some ({ isConnected := true, reconnectAttempts := 0,
              channelGen := st.channelGen + 1, consumersOnChannel := [] },
            waitsFrom st.reconnectAttempts n ++ connectSeqEvents (st.channelGen + 1)) := by
  intro n
  induction n with
  | zero =>
    intro k st fuel _ h2 hfuel
    match fuel, hfuel with
    | f + 1, _ =>
      rw [Nat.add_zero] at h2
      simp [connect, h2, waitsFrom]
  | succ n ih =>
    intro k st fuel h1 h2 hfuel
    match fuel, hfuel with
    | f + 1, hfuel =>
      have hk : oracle k = false := by
        have := h1 0 (Nat.succ_pos n)
        simpa using this
      match f, hfuel with
      | g + 1, hfuel =>
        have ihg := ih (k + 1)
          ({ st with isConnected := false, reconnectAttempts := st.reconnectAttempts + 1 }) g
          (fun i hi => by
            have := h1 (i + 1) (Nat.succ_lt_succ hi)
            simpa [Nat.add_assoc, Nat.add_comm 1 i] using this)
          (by
            have : k + 1 + n = k + (n + 1) := by omega
            rw [this]; exact h2)
          (by omega)
        simp only [connect, handleReconnect, hk, Bool.false_eq_true, if_false]
        rw [ihg]
        simp only [Option.map_some]
        rw [waitsFrom_succ]
        rfl

/-- Claim C9: a connection close/error event (`handleReconnect`) increments
the attempt counter and waits `min(30000, 2^attempts * 1000)` ms before
re-running the full connect sequence (fresh channel, prefetch 1, durable
assertions of both queues); each further failure repeats this with the
incremented counter, for any number `n` of failures, and a successful
connect resets the counter to zero. -/
theorem reconnect_backoff_behavior (oracle : Nat → Bool) (n : Nat) (st : RmqState)
    (fuel : Nat) (h1 : ∀ i, i < n → oracle i = false) (h2 : oracle n = true)
    (hfuel : 2 * n + 2 ≤ fuel) :
    handleReconnect fuel oracle 0 st =
      some ({ isConnected := true, reconnectAttempts := 0,
              channelGen := st.channelGen + 1, consumersOnChannel := [] },
            waitsFrom st.reconnectAttempts (n + 1) ++
              connectSeqEvents (st.channelGen + 1)) := by
  match fuel, hfuel with
  | f + 1, hfuel =>
    have hc := connect_trace oracle n 0
      ({ st with isConnected := false, reconnectAttempts := st.reconnectAttempts + 1 }) f
      (fun i hi => by simpa using h1 i hi)
      (by simpa using h2)
      (by omega)
    simp only [handleReconnect]
    rw [hc]
    rw [waitsFrom_succ]
    rfl

/-- Witness for C9: two failed attempts then success, starting from a
connected state with a zero counter: delays 2000 ms then 4000 ms then
8000 ms, ending connected with the counter reset. -/
theorem reconnect_backoff_behavior_witness :
    handleReconnect 8 (fun k => decide (2 ≤ k)) 0 ⟨true, 0, 1, []⟩ =
      some (⟨true, 0, 2, []⟩, waitsFrom 0 3 ++ connectSeqEvents 2) :=
  reconnect_backoff_behavior (fun k => decide (2 ≤ k)) 2 ⟨true, 0, 1, []⟩ 8
    (by decide) (by decide) (by decide)

/-- Helper: `Math.floor(r * m)` for a uniform draw `r ∈ [0,1)` lies in
`[0, m)`. -/
theorem floor_rand_bounds (r : ℚ) (m : ℕ) (h0 : 0 ≤ r) (h1 : r < 1) (hm : 0 < m) :
    (0 : ℤ) ≤ Int.floor (r * (m : ℚ)) ∧ Int.floor (r * (m : ℚ)) < (m : ℤ) := by
  constructor
  · exact Int.floor_nonneg.mpr (mul_nonneg h0 (by positivity))
  · rw [Int.floor_lt]
    push_cast
    have hmq : (0 : ℚ) < (m : ℚ) := by exact_mod_cast hm
    calc r * (m : ℚ) < 1 * (m : ℚ) := mul_lt_mul_of_pos_right h1 hmq
      _ = (m : ℚ) := one_mul _

/-- Claim C8: every field present in the override record is returned
verbatim (no validation), and the non-overridden tube/exposure fields fall
within their documented ranges: `kV ∈ [80,120]`, `mA ∈ [100,400]`,
`exposureTime ∈ [50,200]`, `projectionType ∈ {AP, PA}`. -/
theorem generateSample_overrides_and_ranges (now : Int) (rnd : Fin 9 → ℚ)
    (h : ∀ i, 0 ≤ rnd i ∧ rnd i < 1) (deviceId : String) (ov : GenOverrides) :
    (∀ v, ov.deviceId = some v → (generateSample now rnd deviceId ov).deviceId = v) ∧
    (∀ v, ov.time = some v → (generateSample now rnd deviceId ov).time = v) ∧
    (∀ v, ov.dataLength = some v → (generateSample now rnd deviceId ov).dataLength = v) ∧
    (∀ v, ov.dataVolume = some v → (generateSample now rnd deviceId ov).dataVolume = v) ∧
    (∀ v, ov.kV = some v → (generateSample now rnd deviceId ov).kV = v) ∧
    (∀ v, ov.mA = some v → (generateSample now rnd deviceId ov).mA = v) ∧
    (∀ v, ov.exposureTime = some v → (generateSample now rnd deviceId ov).exposureTime = v) ∧
    (∀ v, ov.projectionType = some v → (generateSample now rnd deviceId ov).projectionType = v) ∧
    (∀ v, ov.latitude = some v → (generateSample now rnd deviceId ov).latitude = v) ∧
    (∀ v, ov.longitude = some v → (generateSample now rnd deviceId ov).longitude = v) ∧
    (∀ v, ov.speed = some v → (generateSample now rnd deviceId ov).speed = v) ∧
    (ov.kV = none → 80 ≤ (generateSample now rnd deviceId ov).kV ∧
      (generateSample now rnd deviceId ov).kV ≤ 120) ∧
    (ov.mA = none → 100 ≤ (generateSample now rnd deviceId ov).mA ∧
      (generateSample now rnd deviceId ov).mA ≤ 400) ∧
    (ov.exposureTime = none → 50 ≤ (generateSample now rnd deviceId ov).exposureTime ∧
      (generateSample now rnd deviceId ov).exposureTime ≤ 200) ∧
    (ov.projectionType = none → (generateSample now rnd deviceId ov).projectionType = "AP" ∨
      (generateSample now rnd deviceId ov).projectionType = "PA") := by
  refine ⟨?_, ?_, ?_, ?_, ?_, ?_, ?_, ?_, ?_, ?_, ?_, ?_, ?_, ?_, ?_⟩
  · intro v hv; simp [generateSample, hv]
  · intro v hv; simp [generateSample, hv]
  · intro v hv; simp [generateSample, hv]
  · intro v hv; simp [generateSample, hv]
  · intro v hv; simp [generateSample, hv]
  · intro v hv; simp [generateSample, hv]
  · intro v hv; simp [generateSample, hv]
  · intro v hv; simp [generateSample, hv]
  · intro v hv; simp [generateSample, hv]
  · intro v hv; simp [generateSample, hv]
  · intro v hv; simp [generateSample, hv]
  · intro hnone
    obtain ⟨hb0, hb1⟩ := floor_rand_bounds (rnd 2) 40 (h 2).1 (h 2).2 (by norm_num)
    norm_num at hb0 hb1
    simp only [generateSample, hnone, Option.getD_none]
    constructor
    · have : (0 : ℚ) ≤ ((Int.floor (rnd 2 * (40 : ℚ)) : ℤ) : ℚ) := by exact_mod_cast hb0
      linarith
    · have : ((Int.floor (rnd 2 * (40 : ℚ)) : ℤ) : ℚ) ≤ 39 := by
        have : Int.floor (rnd 2 * (40 : ℚ)) ≤ 39 := by omega
        exact_mod_cast this
      linarith
  · intro hnone
    obtain ⟨hb0, hb1⟩ := floor_rand_bounds (rnd 3) 300 (h 3).1 (h 3).2 (by norm_num)
    norm_num at hb0 hb1
    simp only [generateSample, hnone, Option.getD_none]
    constructor
    · have : (0 : ℚ) ≤ ((Int.floor (rnd 3 * (300 : ℚ)) : ℤ) : ℚ) := by exact_mod_cast hb0
      linarith
    · have : ((Int.floor (rnd 3 * (300 : ℚ)) : ℤ) : ℚ) ≤ 299 := by
        have : Int.floor (rnd 3 * (300 : ℚ)) ≤ 299 := by omega
        exact_mod_cast this
      linarith
  · intro hnone
    obtain ⟨hb0, hb1⟩ := floor_rand_bounds (rnd 4) 150 (h 4).1 (h 4).2 (by norm_num)
    norm_num at hb0 hb1
    simp only [generateSample, hnone, Option.getD_none]
    constructor
    · have : (0 : ℚ) ≤ ((Int.floor (rnd 4 * (150 : ℚ)) : ℤ) : ℚ) := by exact_mod_cast hb0
      linarith
    · have : ((Int.floor (rnd 4 * (150 : ℚ)) : ℤ) : ℚ) ≤ 149 := by
        have : Int.floor (rnd 4 * (150 : ℚ)) ≤ 149 := by omega
        exact_mod_cast this
      linarith
  · intro hnone
    simp only [generateSample, hnone, Option.getD_none]
    by_cases hp : rnd 5 > 1 / 2
    · left; rw [if_pos hp]
    · right; rw [if_neg hp]

/-- Witness for C8: a zero random source, with `kV` overridden by the
(invalid) value 999 and `projectionType` by `Lateral` — both returned
verbatim, while the non-overridden `mA` stays in range. -/
theorem generateSample_overrides_and_ranges_witness :
    (generateSample 0 (fun _ => 0) "d1"
        { kV := some 999, projectionType := some "Lateral" }).kV = 999 ∧
    (generateSample 0 (fun _ => 0) "d1"
        { kV := some 999, projectionType := some "Lateral" }).projectionType = "Lateral" ∧
    100 ≤ (generateSample 0 (fun _ => 0) "d1"
        { kV := some 999, projectionType := some "Lateral" }).mA ∧
    (generateSample 0 (fun _ => 0) "d1"
        { kV := some 999, projectionType := some "Lateral" }).mA ≤ 400 := by
  have h := generateSample_overrides_and_ranges 0 (fun _ => 0)
    (fun i => ⟨le_refl 0, by norm_num⟩) "d1"
    { kV := some 999, projectionType := some "Lateral" }
  obtain ⟨-, -, -, -, hkV, -, -, hproj, -, -, -, -, hmAr, -, -⟩ := h
  exact ⟨hkV 999 rfl, hproj "Lateral" rfl, (hmAr rfl).1, (hmAr rfl).2⟩

/-- A concrete JS runtime for counterexamples and witnesses: every date
string parses to the epoch, and the current time is the epoch. -/
def envEpoch : JsEnv := ⟨fun _ => some 0, 0⟩

/-- A decoded payload that already carries numeric `dataLength` (5) and
`dataVolume` (7). -/
def payloadWithLengths : JsVal :=
  .obj [("deviceId", .str "d"), ("time", .num 5),
        ("dataLength", .num 5), ("dataVolume", .num 7)]

/-- Helper: `calculateDataVolume` is exactly 1.5x `calculateDataLength`. -/
theorem calculateDataVolumeSvc_eq (p : CreateXrayDto) :
    calculateDataVolumeSvc p = calculateDataLengthSvc p * (3 / 2) := by
  unfold calculateDataVolumeSvc calculateDataLengthSvc
  rw [Rat.divInt_eq_div]
  push_cast
  ring

/-- Helper: the fields of the record `processRawSignal` hands to the save
step, in terms of its input: `dataLength`/`dataVolume` are recomputed from
the serialized input, every other field is copied. -/
theorem processRawSignal_ok_fields (env : JsEnv) (p rec : CreateXrayDto)
    (h : processRawSignal env p = .ok rec) :
    rec.deviceId = p.deviceId ∧
    rec.dataLength = calculateDataLengthSvc p ∧
    rec.dataVolume = calculateDataLengthSvc p * (3 / 2) ∧
    rec.kV = p.kV ∧ rec.mA = p.mA ∧ rec.exposureTime = p.exposureTime ∧
    rec.projectionType = p.projectionType ∧
    rec.latitude = p.latitude ∧ rec.longitude = p.longitude ∧ rec.speed = p.speed := by
  unfold processRawSignal at h
  by_cases hdev : p.deviceId == ""
  · simp [hdev, except_throw_eq, except_bind_error] at h
  · by_cases htime : p.time != ""
    · cases hdp : env.dateParse p.time with
      | some ms =>
        simp [hdev, htime, hdp, except_throw_eq, except_bind_error,
          except_pure_eq, except_bind_ok] at h
        subst h
        exact ⟨rfl, rfl, calculateDataVolumeSvc_eq p, rfl, rfl, rfl, rfl, rfl, rfl, rfl⟩
      | none =>
        simp [hdev, htime, hdp, except_throw_eq, except_bind_error,
          except_pure_eq, except_bind_ok] at h
    · simp [hdev, htime, except_throw_eq, except_bind_error,
        except_pure_eq, except_bind_ok] at h
      subst h
      exact ⟨rfl, rfl, calculateDataVolumeSvc_eq p, rfl, rfl, rfl, rfl, rfl, rfl, rfl⟩

/-- Claim C5 counterexample: the pipeline consumes a payload carrying
numeric `dataLength` 5 and `dataVolume` 7, yet the record handed to the
persistence step carries 80 and 120 (the serialized dto's byte length and
1.5x it) — the incoming values are not forwarded unchanged. -/
theorem dataLength_not_forwarded_counterexample :
    ((xrayConsumerHandler envEpoch [] payloadWithLengths).1.map
      (fun r => (r.dataLength, r.dataVolume))) = [((80 : ℚ), (120 : ℚ))] ∧
    ¬ ((xrayConsumerHandler envEpoch [] payloadWithLengths).1.map
      (fun r => (r.dataLength, r.dataVolume))) = [((5 : ℚ), (7 : ℚ))] := by
  constructor
  · decide
  · decide

/-- Claim C5 (amended): for every record accepted by `processRawSignal`,
the forwarded `dataLength` is always recomputed as the byte length of the
normalized dto's JSON encoding and `dataVolume` as 1.5x that, regardless
of any numeric values the incoming payload carried. -/
theorem processed_record_derives_length (env : JsEnv) (dto rec : CreateXrayDto)
    (h : processRawSignal env dto = .ok rec) :
    rec.dataLength = ((stringifyDto dto).utf8ByteSize : ℚ) ∧
    rec.dataVolume = rec.dataLength * (3 / 2) := by
  obtain ⟨-, hdl, hdv, -⟩ := processRawSignal_ok_fields env dto rec h
  exact ⟨hdl, by rw [hdv, hdl]⟩

/-- A concrete dto for the C5 witness. -/
def dtoW : CreateXrayDto :=
  ⟨"d", "1970-01-01T00:00:00.000Z", 5, 7, none, none, none, none, none, none, none⟩

/-- Witness for the amended C5 on a dto carrying `dataLength` 5 and
`dataVolume` 7: the saved record derives both from the serialized size. -/
theorem processed_record_derives_length_witness :
    processRawSignal envEpoch dtoW =
      .ok ⟨"d", "1970-01-01T00:00:00.000Z", 80, 120,
           none, none, none, none, none, none, none⟩ ∧
    (80 : ℚ) = ((stringifyDto dtoW).utf8ByteSize : ℚ) ∧
    (120 : ℚ) = (80 : ℚ) * (3 / 2) := by
  have h : processRawSignal envEpoch dtoW =
      .ok ⟨"d", "1970-01-01T00:00:00.000Z", 80, 120,
           none, none, none, none, none, none, none⟩ := rfl
  exact ⟨h, processed_record_derives_length envEpoch dtoW _ h⟩

/-- A decoded payload whose `time` is the numeric epoch value 0. -/
def payloadTimeZero : JsVal := .obj [("deviceId", .str "d"), ("time", .num 0)]

/-- Claim C7 counterexample: the numeric epoch value 0 is a valid time
value (`new Date(0)` is the epoch, as the second conjunct records), yet the
parser rejects the payload — `!data.time` treats the number 0 as missing —
so not every numeric epoch value is accepted. -/
theorem numeric_epoch_zero_rejected :
    parseXrayData envEpoch payloadTimeZero =
      .error "Invalid time: timestamp is required" ∧
    jsDateOfNum 0 = some 0 := by
  exact ⟨rfl, rfl⟩

/-- Claim C7 (amended): on an object payload with a valid `deviceId`, the
`time` field is accepted as an already-parsed valid `Date`, as a nonempty
parsable date string, or as a nonzero in-range numeric epoch value, and each
is normalized to the canonical ISO rendering `toISOString`; an unparsable
nonempty string fails validation, an absent `time` fails validation, and —
the amendment — the numeric epoch value 0 (being falsy) also fails with the
timestamp-required error. -/
theorem time_normalization (env : JsEnv) (fs : List (String × JsVal)) (dev : String)
    (hdev : jsGet (.obj fs) "deviceId" = some (.str dev)) (hne : dev ≠ "") :
    (jsGet (.obj fs) "time" = none →
      parseXrayData env (.obj fs) = .error "Invalid time: timestamp is required") ∧
    (∀ ms : Int, jsGet (.obj fs) "time" = some (.date (some ms)) →
      ∃ dto, parseXrayData env (.obj fs) = .ok dto ∧ dto.time = toISOString ms) ∧
    (∀ s, jsGet (.obj fs) "time" = some (.str s) → s ≠ "" → env.dateParse s = none →
      parseXrayData env (.obj fs) =
        .error "Invalid time format: unable to parse timestamp") ∧
    (∀ s ms, jsGet (.obj fs) "time" = some (.str s) → s ≠ "" →
      env.dateParse s = some ms →
      ∃ dto, parseXrayData env (.obj fs) = .ok dto ∧ dto.time = toISOString ms) ∧
    (∀ q : ℚ, jsGet (.obj fs) "time" = some (.num q) → q ≠ 0 →
      ∀ ms, jsDateOfNum q = some ms →
      ∃ dto, parseXrayData env (.obj fs) = .ok dto ∧ dto.time = toISOString ms) ∧
    (jsGet (.obj fs) "time" = some (.num 0) →
      parseXrayData env (.obj fs) = .error "Invalid time: timestamp is required") := by
  refine ⟨?_, ?_, ?_, ?_, ?_, ?_⟩
  · intro ht
    simp [parseXrayData, jsTruthy, jsTypeofObject, jsTruthyOpt, hdev, hne, ht,
      except_throw_eq, except_pure_eq, except_bind_error, except_bind_ok]
  · intro ms ht
    simp [parseXrayData, jsTruthy, jsTypeofObject, jsTruthyOpt, hdev, hne, ht,
      except_throw_eq, except_pure_eq, except_bind_error, except_bind_ok]
  · intro s ht hs hdp
    simp [parseXrayData, jsTruthy, jsTypeofObject, jsTruthyOpt, hdev, hne, ht, hs, hdp,
      except_throw_eq, except_pure_eq, except_bind_error, except_bind_ok]
  · intro s ms ht hs hdp
    simp [parseXrayData, jsTruthy, jsTypeofObject, jsTruthyOpt, hdev, hne, ht, hs, hdp,
      except_throw_eq, except_pure_eq, except_bind_error, except_bind_ok]
  · intro q ht hq ms hms
    simp [parseXrayData, jsTruthy, jsTypeofObject, jsTruthyOpt, hdev, hne, ht, hq, hms,
      except_throw_eq, except_pure_eq, except_bind_error, except_bind_ok]
  · intro ht
    simp [parseXrayData, jsTruthy, jsTypeofObject, jsTruthyOpt, hdev, hne, ht,
      except_throw_eq, except_pure_eq, except_bind_error, except_bind_ok]

/-- The object fields of the C7 witness payload. -/
def fsW : List (String × JsVal) := [("deviceId", .str "d"), ("time", .str "T")]

/-- Witness for the amended C7: a string time parsed by the runtime to the
epoch is normalized to the canonical ISO rendering. -/
theorem time_normalization_witness :
    ∃ dto, parseXrayData envEpoch (.obj fsW) = .ok dto ∧
      dto.time = toISOString 0 := by
  have h := time_normalization envEpoch fsW "d" rfl (by decide)
  exact h.2.2.2.1 "T" 0 rfl (by decide) rfl

/-- Helper: every dto produced by `parseXrayData` has no coordinate/speed
fields — its object literal never sets them. -/
theorem parseXrayData_ok_geo_none (env : JsEnv) (p : JsVal) (dto : CreateXrayDto)
    (h : parseXrayData env p = .ok dto) :
    dto.latitude = none ∧ dto.longitude = none ∧ dto.speed = none := by
  unfold parseXrayData at h
  simp only [except_throw_eq, except_pure_eq, except_bind_error, except_bind_ok] at h
  repeat'
    first
      | exact Except.noConfusion h
      | (injection h with h2; subst h2; exact ⟨rfl, rfl, rfl⟩)
      | split at h

/-- Claim C10: whatever the consume callback does with a decoded payload,
the store either is unchanged or receives exactly one record whose
`latitude`, `longitude` and `speed` are absent — any coordinate/speed keys
of the incoming payload (and any other non-canonical key, which the record
type cannot even represent) are dropped, never forwarded. -/
theorem forwarded_record_canonical_fields (env : JsEnv) (store : List CreateXrayDto)
    (payload : JsVal) (store2 : List CreateXrayDto) (log : Option String)
    (h : xrayConsumerHandler env store payload = (store2, log)) :
    store2 = store ∨
    ∃ rec, store2 = store ++ [rec] ∧
      rec.latitude = none ∧ rec.longitude = none ∧ rec.speed = none := by
  unfold xrayConsumerHandler at h
  cases hp : parseXrayData env payload with
  | error e =>
    rw [hp] at h
    simp only [except_bind_error] at h
    injection h with h1 h2
    exact Or.inl h1.symm
  | ok dto =>
    rw [hp] at h
    simp only [except_bind_ok, processAndSaveSignal] at h
    have hg := parseXrayData_ok_geo_none env payload dto hp
    by_cases hdl : dto.dataLength == 0
    · rw [if_pos hdl] at h
      cases hps : processRawSignal env
          { dto with dataLength := calculateDataLengthRaw payload } with
      | error e =>
        rw [hps] at h
        simp only [except_bind_error] at h
        injection h with h1 h2
        exact Or.inl h1.symm
      | ok rec =>
        rw [hps] at h
        simp only [except_bind_ok, except_pure_eq] at h
        injection h with h1 h2
        obtain ⟨-, -, -, -, -, -, -, hlat, hlon, hspd⟩ :=
          processRawSignal_ok_fields env _ rec hps
        exact Or.inr ⟨rec, h1.symm, hlat.trans hg.1, hlon.trans hg.2.1,
          hspd.trans hg.2.2⟩
    · rw [if_neg hdl] at h
      cases hps : processRawSignal env dto with
      | error e =>
        rw [hps] at h
        simp only [except_bind_error] at h
        injection h with h1 h2
        exact Or.inl h1.symm
      | ok rec =>
        rw [hps] at h
        simp only [except_bind_ok, except_pure_eq] at h
        injection h with h1 h2
        obtain ⟨-, -, -, -, -, -, -, hlat, hlon, hspd⟩ :=
          processRawSignal_ok_fields env _ rec hps
        exact Or.inr ⟨rec, h1.symm, hlat.trans hg.1, hlon.trans hg.2.1,
          hspd.trans hg.2.2⟩

/-- A payload carrying coordinate and speed keys, as the geo-emitting
generator produces. -/
def payloadWithGeo : JsVal :=
  .obj [("deviceId", .str "d"), ("time", .num 5),
        ("latitude", .num 1), ("longitude", .num 2), ("speed", .num 3)]

/-- Witness for C10: a payload with `latitude`/`longitude`/`speed` keys is
accepted, and the single saved record carries none of them. -/
theorem forwarded_record_canonical_fields_witness :
    ([(⟨"d", "1970-01-01T00:00:00.000Z", 81, mkRat 243 2,
        none, none, none, none, none, none, none⟩ : CreateXrayDto)] =
      ([] : List CreateXrayDto)) ∨
    ∃ rec, [(⟨"d", "1970-01-01T00:00:00.000Z", 81, mkRat 243 2,
        none, none, none, none, none, none, none⟩ : CreateXrayDto)] =
        ([] : List CreateXrayDto) ++ [rec] ∧
      rec.latitude = none ∧ rec.longitude = none ∧ rec.speed = none :=
  forwarded_record_canonical_fields envEpoch [] payloadWithGeo _ none (by decide)

end XrayIot
